import Mathlib

/-!
Verification of the sitemap checker script (`sitemap.py`).

The script is sequential glue around network and browser I/O, so the embedding
makes every effect explicit: each `requests.get` call, each browser interaction
and each file write is an input supplied by an environment record, and each
function returns its value together with the list of observable effects
(file writes, browser navigations, browser teardown) it performs.

Python string primitives used by the script (`lower`, `strip`, `in`,
`os.path.basename`, `urlparse(...).path`, `str.replace`) are modelled by
executable functions over the character list of a `String`, mirroring the
Python semantics on the ASCII inputs the script manipulates.
-/

/-- Model of Python `str.lower()` (ASCII range, which covers every literal the
script compares against). -/
def pyLower (s : String) : String := String.mk (s.data.map Char.toLower)

/-- The whitespace characters stripped by Python `str.strip()`. -/
def isPySpace (c : Char) : Bool :=
  c = ' ' || c = '\t' || c = '\n' || c = '\r' || c = '\x0b' || c = '\x0c'

/-- Model of Python `str.strip()`: drop leading and trailing whitespace. -/
def pyStrip (s : String) : String :=
  String.mk (((s.data.dropWhile isPySpace).reverse.dropWhile isPySpace).reverse)

/-- Boolean list-prefix test on character lists. -/
def isPrefixList : List Char → List Char → Bool
  | [], _ => true
  | _ :: _, [] => false
  | a :: as, b :: bs => a == b && isPrefixList as bs

/-- Boolean substring search on character lists. -/
def subList (needle : List Char) : List Char → Bool
  | [] => needle.isEmpty
  | c :: cs => isPrefixList needle (c :: cs) || subList needle cs

/-- Model of Python `needle in hay` on strings: substring containment. -/
def pyIn (needle hay : String) : Bool := subList needle.data hay.data

/-- Model of Python `len` on a string: the number of characters. -/
def pyLen (s : String) : Nat := s.data.length

/-- Model of Python `x in [s1, s2, ...]` membership on a list of strings. -/
def pyMem (x : String) : List String → Bool
  | [] => false
  | y :: ys => x == y || pyMem x ys

/-- First occurrence search: the tail of the haystack just after the first
occurrence of `needle`, if any. -/
def afterSub (needle : List Char) : List Char → Option (List Char)
  | [] => none
  | c :: cs =>
    if isPrefixList needle (c :: cs) then some ((c :: cs).drop needle.length)
    else afterSub needle cs

/-- Model of Python `urlparse(url).path` for the http(s) URLs the script
handles: strip any fragment and query, and if the URL carries a
`scheme://authority` part, keep only what starts at the first `/` after the
authority; otherwise the whole remaining text is the path. -/
def urlparsePath (url : String) : String :=
  let noFrag := url.data.takeWhile (fun c => c != '#')
  let noQuery := noFrag.takeWhile (fun c => c != '?')
  match afterSub ("://".data) noQuery with
  | none => String.mk noQuery
  | some rest => String.mk (rest.dropWhile (fun c => c != '/'))

/-- Model of POSIX `os.path.basename`: everything after the last `/`. -/
def basename (p : String) : String :=
  String.mk ((p.data.reverse.takeWhile (fun c => c != '/')).reverse)

/-- Model of `path.replace('/', '_')`: a character-wise replacement. -/
def replaceSlash (p : String) : String :=
  String.mk (p.data.map (fun c => if c = '/' then '_' else c))

/-- Outcome of one `requests.get` call: either a raised `RequestException`
(carrying `str(e)`) or a response with an HTTP status code and a payload
(the body, or for the page checker the post-redirect `response.url`). -/
inductive FetchResult (α : Type) where
  | exn (msg : String)
  | resp (status : Nat) (payload : α)

/-- A fetched body together with what `xml.etree.ElementTree.fromstring` makes
of it. A malformed body makes the parse raise `ParseError`. A well-formed body
determines the `.text` of every `<sitemap><loc>` and every `<url><loc>` element
matched under the `http://www.sitemaps.org/schemas/sitemap/0.9` namespace, in
document order; `loc.text` is `none` for a loc element with no text content.
`raw` is `response.content`, the raw bytes of the body. -/
inductive XmlBody where
  | malformed (raw : String)
  | wellFormed (raw : String) (sitemapLocs : List (Option String)) (urlLocs : List (Option String))

/-- The raw bytes of a fetched body (`response.content`). -/
def XmlBody.raw : XmlBody → String
  | .malformed r => r
  | .wellFormed r _ _ => r

/-- Whether `ET.fromstring` succeeds on the body. -/
def XmlBody.isWellFormed : XmlBody → Bool
  | .malformed _ => false
  | .wellFormed _ _ _ => true

/-- `validate_xml` (sitemap.py lines 31-42): fetch the URL; a non-200 status
reports `HTTP <code> received`; a parse failure reports
`Invalid XML structure`; a raised request error reports `Request error: <e>`;
otherwise the result is `(True, "Valid XML")`. The function is total: no
exception escapes in any of these cases. -/
def validate_xml (r : FetchResult XmlBody) : Bool × String :=
  match r with
  | .exn m => (false, "Request error: " ++ m)
  | .resp status body =>
    if status ≠ 200 then (false, "HTTP " ++ toString status ++ " received")
    else
      match body with
      | .malformed _ => (false, "Invalid XML structure")
      | .wellFormed _ _ _ => (true, "Valid XML")

/-- `download_sitemap` (sitemap.py lines 44-62): fetch the URL; on a 200
response derive the output filename as the basename of the URL path, failing
with `Invalid filename in URL` when it is empty, and otherwise write the raw
response bytes to that filename. The second component lists the completed file
writes as `(filename, bytes)` pairs; `writeErr` is the `OSError` raised by the
write, if any. -/
def download_sitemap (url : String) (r : FetchResult XmlBody) (writeErr : Option String) :
    (Bool × String) × List (String × String) :=
  match r with
  | .exn m => ((false, "Download error: " ++ m), [])
  | .resp status body =>
    if status ≠ 200 then ((false, "Failed to download: HTTP " ++ toString status), [])
    else
      let filename := basename (urlparsePath url)
      if filename = "" then ((false, "Invalid filename in URL"), [])
      else
        match writeErr with
        | some m => ((false, "File write error: " ++ m), [])
        | none => ((true, "Saved as " ++ filename), [(filename, body.raw)])

/-- `get_sitemap_urls` (sitemap.py lines 64-94): on a 200, well-formed
response, the `.text` of every `.//ns:sitemap/ns:loc` match in document order
(`[loc.text for loc in sitemaps]`, including `None` texts); on any request
error, non-200 status or parse error, the empty list. -/
def get_sitemap_urls (r : FetchResult XmlBody) : List (Option String) :=
  match r with
  | .exn _ => []
  | .resp status body =>
    if status ≠ 200 then []
    else
      match body with
      | .malformed _ => []
      | .wellFormed _ sitemapLocs _ => sitemapLocs

/-- `get_top_urls` (sitemap.py lines 96-109): on a 200, well-formed response,
the `.text` of every `.//ns:url/ns:loc` match in document order, truncated to
the first `limit` entries (`urls[:limit]`, default limit 10); on any request
error, non-200 status or parse error, the empty list. -/
def get_top_urls (r : FetchResult XmlBody) (limit : Nat) : List (Option String) :=
  match r with
  | .exn _ => []
  | .resp status body =>
    if status ≠ 200 then []
    else
      match body with
      | .malformed _ => []
      | .wellFormed _ _ urlLocs => urlLocs.take limit

/-- The rendered page the browser hands back for one URL: `driver.page_source`
plus what BeautifulSoup extracts from it — `soup.title.string` (combined with
the existence of the title tag: `none` models both a missing `<title>` and a
`None` `.string`), and the `.string` of every `h1` and every `div` element
(`none` when `.string` is `None`). -/
structure RenderedPage where
  content : String
  title : Option String
  h1Strings : List (Option String)
  divStrings : List (Option String)

/-- The fixed soft-404 phrase list of sitemap.py lines 174-180. -/
def soft_404_indicators : List String :=
  ["404 page not found",
   "sorry... we seem to have lost this page between our fabric rolls",
   "page not found",
   "error 404",
   "not found"]

/-- The suspicious-title list of sitemap.py line 186. -/
def suspicious_titles : List String := ["loading...", "menu", "", "home"]

/-- The `title` variable of sitemap.py line 171: the lowercased title string
when the title tag exists with a string, else the empty string. -/
def pageTitle (p : RenderedPage) : String :=
  match p.title with
  | some t => pyLower t
  | none => ""

/-- The heuristic condition of sitemap.py lines 187-192 deciding the
`"- ERROR 404"` branch, translated clause for clause from the source. -/
def is404 (p : RenderedPage) : Bool :=
  let title := pageTitle p
  let content_lower := pyLower p.content
  let h1_elements := (p.h1Strings.filterMap id).map pyLower
  let div_elements := (p.divStrings.filterMap id).map pyLower
  pyMem title suspicious_titles ||
    pyIn "404" title ||
    pyIn "not found" title ||
    soft_404_indicators.any (fun indicator => pyIn indicator content_lower) ||
    h1_elements.any (fun h1 => pyIn "404" h1 || pyIn "not found" h1) ||
    div_elements.any (fun d => soft_404_indicators.any (fun indicator => pyIn indicator d))

/-- The 404 condition exactly as the specification words it: the lowercased
title exactly matches the suspicious-title set; or the title contains "404" or
"not found"; or the full lowercased HTML contains a soft-404 phrase; or any
heading text contains "404" or "not found"; or any block-element text contains
a soft-404 phrase. Stated for comparison against `is404`, which is translated
from the source. -/
def spec_is404 (p : RenderedPage) : Bool :=
  pyMem (pageTitle p) suspicious_titles ||
    pyIn "404" (pageTitle p) ||
    pyIn "not found" (pageTitle p) ||
    soft_404_indicators.any (fun phrase => pyIn phrase (pyLower p.content)) ||
    (p.h1Strings.filterMap id).any
      (fun h => pyIn "404" (pyLower h) || pyIn "not found" (pyLower h)) ||
    (p.divStrings.filterMap id).any
      (fun d => soft_404_indicators.any (fun phrase => pyIn phrase (pyLower d)))

/-- Environment for the per-URL body of `check_url_status`'s loop: the outcome
of the plain `requests.get` (payload = the post-redirect `response.url`),
whether `driver.get` returns without raising, the URLs observed before and
after the explicit waits, whether the two `WebDriverWait` calls both succeed,
the rendered page, and whether writing the debug snapshot raises `OSError`. -/
structure PageEnv where
  fetch : FetchResult String
  navOk : Bool
  initialUrl : String
  waitOk : Bool
  currentUrl : String
  page : RenderedPage
  writeErr : Bool

/-- The JS-redirect condition of sitemap.py lines 153-155: both waits
succeeded, the current URL changed, and its lowercase form contains "/404". -/
def redirects404 (e : PageEnv) : Bool :=
  e.waitOk && (e.currentUrl != e.initialUrl) && pyIn "/404" (pyLower e.currentUrl)

/-- The minimal-content condition of sitemap.py line 166: fewer than 5000
characters, or the stripped lowercase content is "loading..." or empty. -/
def minimalContent (content : String) : Bool :=
  decide (pyLen content < 5000) || pyMem (pyLower (pyStrip content)) ["loading...", ""]

/-- The debug snapshot filename of sitemap.py line 198, derived from the path
of the plain fetch's post-redirect URL with slashes replaced. -/
def debugName (finalUrl : String) : String :=
  "debug_" ++ replaceSlash (urlparsePath finalUrl) ++ ".html"

/-- Observable side effects of `check_url_status`: a browser navigation
(`driver.get`), a completed debug-file write, and the browser teardown
(`driver.quit`). -/
inductive Event where
  | navigate
  | writeFile (name : String) (content : String)
  | quit
deriving DecidableEq

/-- The per-URL body of `check_url_status`'s loop (sitemap.py lines 124-204)
for one URL: the `(url, label)` pairs appended to `results` and the effects
performed. A fast-path 404 or a raised plain fetch appends `"- ERROR 404"`
without navigating; a raised `driver.get` is caught and appends
`"- ERROR 404"`; a JS redirect to a `/404` URL or minimal content appends
`"- ERROR 404"` and skips the debug write (the source `continue`s before it);
otherwise the heuristic decides the label and the debug snapshot is written —
if that write raises, the generic handler appends a second `"- ERROR 404"`
pair for the same URL. The URL itself is opaque to the control flow (the
orchestrator can pass `None` entries), hence the type parameter. -/
def check_one {α : Type} (url : α) (e : PageEnv) : List (α × String) × List Event :=
  match e.fetch with
  | .exn _ => ([(url, "- ERROR 404")], [])
  | .resp status finalUrl =>
    if status = 404 then ([(url, "- ERROR 404")], [])
    else if e.navOk = false then ([(url, "- ERROR 404")], [Event.navigate])
    else if redirects404 e then ([(url, "- ERROR 404")], [Event.navigate])
    else if minimalContent e.page.content then ([(url, "- ERROR 404")], [Event.navigate])
    else
      let label := if is404 e.page then "- ERROR 404" else "- OK"
      if e.writeErr then ([(url, label), (url, "- ERROR 404")], [Event.navigate])
      else ([(url, label)], [Event.navigate, Event.writeFile (debugName finalUrl) e.page.content])

/-- The loop of `check_url_status` over the URL list, with the environment of
the i-th iteration given by `envs i`. -/
def check_batch {α : Type} (envs : Nat → PageEnv) : Nat → List α → List (α × String) × List Event
  | _, [] => ([], [])
  | i, u :: us =>
    let r := check_one u (envs i)
    let rest := check_batch envs (i + 1) us
    (r.1 ++ rest.1, r.2 ++ rest.2)

/-- `check_url_status` (sitemap.py lines 111-209). `webdriver.Chrome(...)` is
created before the `try`, so when the session creation raises (`driverOk =
false`) the exception propagates to the caller and nothing else happens; once
created, the loop runs with every per-URL exception caught, and the
`finally` block appends the single `driver.quit` teardown. -/
def check_url_status {α : Type} (driverOk : Bool) (envs : Nat → PageEnv) (urls : List α) :
    Except Unit (List (α × String)) × List Event :=
  if driverOk then
    let b := check_batch envs 0 urls
    (Except.ok b.1, b.2 ++ [Event.quit])
  else (Except.error (), [])

/-- One logged step of the orchestrator `check_sitemap`: a validation outcome,
a download attempt with its outcome, a sampling outcome, or a classification
outcome (the result list of `check_url_status`). -/
inductive RunEvent where
  | validated (url : Option String) (res : Bool × String)
  | downloaded (url : Option String) (res : Bool × String)
  | sampled (url : Option String) (urls : List (Option String))
  | classified (url : Option String) (res : List (Option String × String))

/-- Environment for one child sitemap inside `check_sitemap`'s loop: the fetch
outcomes of its three network round trips (validation, download, sampling),
the download write outcome, and the browser environment for its URLs. -/
structure ChildEnv where
  validateFetch : FetchResult XmlBody
  downloadFetch : FetchResult XmlBody
  downloadWriteErr : Option String
  sampleFetch : FetchResult XmlBody
  driverOk : Bool
  pages : Nat → PageEnv

/-- The string `requests`/`urlparse` would be handed for a child entry:
`loc.text`, with Python's `str` coercion of `None`. A `none` entry always
fails validation in practice (the request layer rejects the URL), so it never
reaches the download step. -/
def urlStr : Option String → String
  | some u => u
  | none => "None"

/-- One iteration of `check_sitemap`'s loop over child sitemaps (sitemap.py
lines 229-254): validate, and on success download, and on success sample, and
when URLs were found classify them. The Bool is true when the iteration raised
(only possible when the browser session creation inside `check_url_status`
fails, which propagates). -/
def run_child (url : Option String) (c : ChildEnv) : List RunEvent × Bool :=
  let v := validate_xml c.validateFetch
  if v.1 = false then ([RunEvent.validated url v], false)
  else
    let d := download_sitemap (urlStr url) c.downloadFetch c.downloadWriteErr
    if d.1.1 = false then ([RunEvent.validated url v, RunEvent.downloaded url d.1], false)
    else
      let urls := get_top_urls c.sampleFetch 10
      if urls.isEmpty then
        ([RunEvent.validated url v, RunEvent.downloaded url d.1, RunEvent.sampled url urls], false)
      else
        match check_url_status c.driverOk c.pages urls with
        | (Except.error _, _) =>
          ([RunEvent.validated url v, RunEvent.downloaded url d.1, RunEvent.sampled url urls], true)
        | (Except.ok rs, _) =>
          ([RunEvent.validated url v, RunEvent.downloaded url d.1, RunEvent.sampled url urls,
            RunEvent.classified url rs], false)

/-- The child loop of `check_sitemap`: children are processed in order, each
with its own environment; an iteration that raises aborts the remaining
children (the exception escapes `check_sitemap`). -/
def childrenTrace (cenvs : Nat → ChildEnv) : Nat → List (Option String) → List RunEvent × Bool
  | _, [] => ([], false)
  | i, u :: us =>
    let r := run_child u (cenvs i)
    if r.2 then (r.1, true)
    else
      let rest := childrenTrace cenvs (i + 1) us
      (r.1 ++ rest.1, rest.2)

/-- Environment of one `check_sitemap` run: the fetch outcome of the root
validation, of the root indexing, and the environment of each child. -/
structure RunEnv where
  mainValidate : FetchResult XmlBody
  mainIndex : FetchResult XmlBody
  children : Nat → ChildEnv

/-- `check_sitemap` (sitemap.py lines 211-254): validate the root sitemap and
stop when invalid; index the children and stop when none; otherwise run the
child loop. Returns the event trace and whether an exception escaped. -/
def check_sitemap (mainUrl : String) (env : RunEnv) : List RunEvent × Bool :=
  let v := validate_xml env.mainValidate
  if v.1 = false then ([RunEvent.validated (some mainUrl) v], false)
  else
    let subs := get_sitemap_urls env.mainIndex
    if subs.isEmpty then ([RunEvent.validated (some mainUrl) v], false)
    else
      let rest := childrenTrace env.children 0 subs
      (RunEvent.validated (some mainUrl) v :: rest.1, rest.2)

/-! ### Shared helper lemmas and concrete test data -/

/-- A string of `n` copies of one character; used to build bodies that clear
the 5000-character minimum without evaluating 5000-step computations. -/
def repChar (n : Nat) (c : Char) : String := String.mk (List.replicate n c)

/-- A 5000-character all-'a' rendered body. -/
def bigContent : String := repChar 5000 'a'

theorem pyLen_repChar (n : Nat) (c : Char) : pyLen (repChar n c) = n := by
  simp [pyLen, repChar]

theorem dropWhile_replicate_of_false (p : Char → Bool) (c : Char) (h : p c = false) (n : Nat) :
    List.dropWhile p (List.replicate n c) = List.replicate n c := by
  cases n with
  | zero => rfl
  | succ m => simp [List.replicate_succ, List.dropWhile_cons, h]

theorem pyStrip_repChar (n : Nat) : pyStrip (repChar n 'a') = repChar n 'a' := by
  simp [pyStrip, repChar, dropWhile_replicate_of_false isPySpace 'a' (by decide),
    List.reverse_replicate]

theorem pyLower_repChar (n : Nat) : pyLower (repChar n 'a') = repChar n 'a' := by
  simp [pyLower, repChar, List.map_replicate]

theorem pyLen_bigContent : pyLen bigContent = 5000 := pyLen_repChar 5000 'a'

theorem bigContent_ne_loading : (bigContent == "loading...") = false := by
  rw [beq_eq_false_iff_ne]
  intro h
  have h2 := congrArg pyLen h
  rw [pyLen_bigContent] at h2
  simp [pyLen] at h2

theorem bigContent_ne_empty : (bigContent == "") = false := by
  rw [beq_eq_false_iff_ne]
  intro h
  have h2 := congrArg pyLen h
  rw [pyLen_bigContent] at h2
  simp [pyLen] at h2

theorem minimalContent_bigContent : minimalContent bigContent = false := by
  unfold minimalContent
  have h : pyLower (pyStrip bigContent) = bigContent := by
    show pyLower (pyStrip (repChar 5000 'a')) = repChar 5000 'a'
    rw [pyStrip_repChar, pyLower_repChar]
  rw [h, pyLen_bigContent]
  simp only [pyMem, bigContent_ne_loading, bigContent_ne_empty, Bool.or_false, Bool.false_or]
  decide

/-- The source condition and the specification's wording of the heuristic
agree clause for clause. -/
theorem is404_eq_spec (p : RenderedPage) : is404 p = spec_is404 p := by
  unfold is404 spec_is404
  simp [List.any_map]

/-! ### Claim theorems -/

/-- C2 (confirmed): `validate_xml` returns `(true, "Valid XML")` exactly when
the HTTP status is 200 and the body parses as well-formed XML; any non-200
response yields `false` with a message containing the status code; a malformed
body yields `false` with the XML-error message; a failed request yields
`false` with the request-error message. The function is total, so no
exception reaches the caller in these cases. -/
theorem c2_validate_xml_contract (r : FetchResult XmlBody) :
    (validate_xml r = (true, "Valid XML") ↔
      ∃ b, r = FetchResult.resp 200 b ∧ b.isWellFormed = true) ∧
    (∀ s b, r = FetchResult.resp s b → s ≠ 200 →
      (validate_xml r).1 = false ∧
      ∃ pre post, (validate_xml r).2 = pre ++ toString s ++ post) ∧
    (∀ raw, r = FetchResult.resp 200 (XmlBody.malformed raw) →
      validate_xml r = (false, "Invalid XML structure")) ∧
    (∀ m, r = FetchResult.exn m → validate_xml r = (false, "Request error: " ++ m)) := by
  refine ⟨⟨?_, ?_⟩, ?_, ?_, ?_⟩
  · intro h
    cases r with
    | exn m => simp [validate_xml] at h
    | resp s b =>
      by_cases hs : s = 200
      · subst hs
        cases b with
        | malformed raw => simp [validate_xml] at h
        | wellFormed raw sl ul => exact ⟨XmlBody.wellFormed raw sl ul, rfl, rfl⟩
      · simp [validate_xml, hs] at h
  · rintro ⟨b, rfl, hb⟩
    cases b with
    | malformed raw => simp [XmlBody.isWellFormed] at hb
    | wellFormed raw sl ul => simp [validate_xml]
  · rintro s b rfl hs
    refine ⟨by simp [validate_xml, hs], "HTTP ", " received", by simp [validate_xml, hs]⟩
  · rintro raw rfl
    simp [validate_xml]
  · rintro m rfl
    rfl

/-- Witness for C2: a concrete 404 response is rejected with a message
containing the status code. -/
theorem c2_witness :
    (validate_xml (FetchResult.resp 404 (XmlBody.malformed "<broken"))).1 = false ∧
    ∃ pre post, (validate_xml (FetchResult.resp 404 (XmlBody.malformed "<broken"))).2 =
      pre ++ toString 404 ++ post :=
  (c2_validate_xml_contract (FetchResult.resp 404 (XmlBody.malformed "<broken"))).2.1
    404 (XmlBody.malformed "<broken") rfl (by decide)

/-- C7 (confirmed): downloading from a URL whose path has a basename, with a
200 response and a successful write, writes exactly one file named by that
basename whose content is byte-for-byte the response body, and reports
success; a URL whose path has no basename fails with "Invalid filename in
URL" and writes nothing; a non-200 status or a request error writes
nothing. -/
theorem c7_download_sitemap_contract (url : String) (r : FetchResult XmlBody)
    (w : Option String) :
    (∀ b, r = FetchResult.resp 200 b → w = none → basename (urlparsePath url) ≠ "" →
      download_sitemap url r w =
        ((true, "Saved as " ++ basename (urlparsePath url)),
         [(basename (urlparsePath url), b.raw)])) ∧
    (∀ b, r = FetchResult.resp 200 b → basename (urlparsePath url) = "" →
      download_sitemap url r w = ((false, "Invalid filename in URL"), [])) ∧
    (∀ s b, r = FetchResult.resp s b → s ≠ 200 → (download_sitemap url r w).2 = []) ∧
    (∀ m, r = FetchResult.exn m → (download_sitemap url r w).2 = []) := by
  refine ⟨?_, ?_, ?_, ?_⟩
  · rintro b rfl rfl h
    simp [download_sitemap, h]
  · rintro b rfl h
    simp [download_sitemap, h]
  · rintro s b rfl hs
    simp [download_sitemap, hs]
  · rintro m rfl
    rfl

/-- Witness for C7: `.../foo/bar.xml` is saved as `bar.xml` with the exact
body, and `.../foo/` is rejected without a write. -/
theorem c7_witness :
    download_sitemap "https://example.com/foo/bar.xml"
        (FetchResult.resp 200 (XmlBody.wellFormed "<x/>" [] [])) none =
      ((true, "Saved as bar.xml"), [("bar.xml", "<x/>")]) ∧
    download_sitemap "https://example.com/foo/"
        (FetchResult.resp 200 (XmlBody.wellFormed "<x/>" [] [])) none =
      ((false, "Invalid filename in URL"), []) := by
  constructor
  · exact (c7_download_sitemap_contract "https://example.com/foo/bar.xml" _ none).1
      (XmlBody.wellFormed "<x/>" [] []) rfl rfl (by decide)
  · exact (c7_download_sitemap_contract "https://example.com/foo/" _ none).2.1
      (XmlBody.wellFormed "<x/>" [] []) rfl (by decide)

/-- C8 (confirmed): for a leaf sitemap with `m` url-loc entries and limit `N`,
`get_top_urls` returns exactly the first `N` entries in document order, of
length `min m N`; a request error, a non-200 status, or a parse error yields
the empty list (and the function is total, so it never raises). -/
theorem c8_get_top_urls_truncation (limit : Nat) :
    (∀ raw sLocs uLocs,
      get_top_urls (FetchResult.resp 200 (XmlBody.wellFormed raw sLocs uLocs)) limit =
        uLocs.take limit ∧
      (get_top_urls (FetchResult.resp 200 (XmlBody.wellFormed raw sLocs uLocs)) limit).length =
        min uLocs.length limit) ∧
    (∀ m, get_top_urls (FetchResult.exn m) limit = []) ∧
    (∀ s b, s ≠ 200 → get_top_urls (FetchResult.resp s b) limit = []) ∧
    (∀ raw, get_top_urls (FetchResult.resp 200 (XmlBody.malformed raw)) limit = []) := by
  refine ⟨?_, ?_, ?_, ?_⟩
  · intro raw sLocs uLocs
    refine ⟨by simp [get_top_urls], ?_⟩
    simp [get_top_urls, List.length_take, Nat.min_comm]
  · intro m
    rfl
  · intro s b hs
    simp [get_top_urls, hs]
  · intro raw
    simp [get_top_urls]

/-- Witness for C8: three entries truncated to limit 2, and a concrete 500
response yielding the empty list. -/
theorem c8_witness :
    get_top_urls
        (FetchResult.resp 200 (XmlBody.wellFormed "<x/>" [] [some "a", some "b", some "c"])) 2 =
      [some "a", some "b"] ∧
    get_top_urls (FetchResult.resp 500 (XmlBody.malformed "x")) 2 = [] := by
  constructor
  · exact ((c8_get_top_urls_truncation 2).1 "<x/>" [] [some "a", some "b", some "c"]).1
  · exact (c8_get_top_urls_truncation 2).2.2.1 500 (XmlBody.malformed "x") (by decide)

/-- C10 (confirmed): the indexer returns one entry per matched
`<sitemap><loc>` element even when the loc has no text — the entry is then
`none` — and the sampler likewise keeps `none` entries (within its
truncation window), so neither returned sequence is guaranteed to consist
only of URL strings. -/
theorem c10_none_loc_entries (raw : String) (sLocs uLocs : List (Option String)) (limit : Nat) :
    get_sitemap_urls (FetchResult.resp 200 (XmlBody.wellFormed raw sLocs uLocs)) = sLocs ∧
    get_top_urls (FetchResult.resp 200 (XmlBody.wellFormed raw sLocs uLocs)) limit =
      uLocs.take limit ∧
    (none ∈ sLocs →
      none ∈ get_sitemap_urls (FetchResult.resp 200 (XmlBody.wellFormed raw sLocs uLocs))) ∧
    (none ∈ uLocs.take limit →
      none ∈ get_top_urls (FetchResult.resp 200 (XmlBody.wellFormed raw sLocs uLocs)) limit) := by
  refine ⟨by simp [get_sitemap_urls], by simp [get_top_urls], ?_, ?_⟩
  · intro h
    simpa [get_sitemap_urls] using h
  · intro h
    simpa [get_top_urls] using h

/-- Witness for C10: a sitemap index with an empty loc element yields a `none`
entry in the returned list. -/
theorem c10_witness :
    none ∈ get_sitemap_urls
      (FetchResult.resp 200 (XmlBody.wellFormed "<x/>" [some "https://c/s.xml", none] [none])) ∧
    none ∈ get_top_urls
      (FetchResult.resp 200 (XmlBody.wellFormed "<x/>" [some "https://c/s.xml", none] [none])) 10 := by
  constructor
  · exact (c10_none_loc_entries "<x/>" [some "https://c/s.xml", none] [none] 10).2.2.1
      (by decide)
  · exact (c10_none_loc_entries "<x/>" [some "https://c/s.xml", none] [none] 10).2.2.2
      (by decide)

/-! ### Branch lemmas for the per-URL classifier body -/

theorem check_one_exn {α : Type} (u : α) (e : PageEnv) (m : String)
    (h : e.fetch = FetchResult.exn m) :
    check_one u e = ([(u, "- ERROR 404")], []) := by
  unfold check_one
  rw [h]

theorem check_one_fast404 {α : Type} (u : α) (e : PageEnv) (f : String)
    (h : e.fetch = FetchResult.resp 404 f) :
    check_one u e = ([(u, "- ERROR 404")], []) := by
  unfold check_one
  rw [h]
  simp

theorem check_one_navFail {α : Type} (u : α) (e : PageEnv) (s : Nat) (f : String)
    (h : e.fetch = FetchResult.resp s f) (h4 : s ≠ 404) (hn : e.navOk = false) :
    check_one u e = ([(u, "- ERROR 404")], [Event.navigate]) := by
  unfold check_one
  rw [h]
  simp [h4, hn]

theorem check_one_redirect {α : Type} (u : α) (e : PageEnv) (s : Nat) (f : String)
    (h : e.fetch = FetchResult.resp s f) (h4 : s ≠ 404) (hn : e.navOk = true)
    (hr : redirects404 e = true) :
    check_one u e = ([(u, "- ERROR 404")], [Event.navigate]) := by
  unfold check_one
  rw [h]
  simp [h4, hn, hr]

theorem check_one_minimal {α : Type} (u : α) (e : PageEnv) (s : Nat) (f : String)
    (h : e.fetch = FetchResult.resp s f) (h4 : s ≠ 404) (hn : e.navOk = true)
    (hr : redirects404 e = false) (hm : minimalContent e.page.content = true) :
    check_one u e = ([(u, "- ERROR 404")], [Event.navigate]) := by
  unfold check_one
  rw [h]
  simp [h4, hn, hr, hm]

theorem check_one_heuristic {α : Type} (u : α) (e : PageEnv) (s : Nat) (f : String)
    (h : e.fetch = FetchResult.resp s f) (h4 : s ≠ 404) (hn : e.navOk = true)
    (hr : redirects404 e = false) (hm : minimalContent e.page.content = false) :
    check_one u e =
      if e.writeErr then
        ([(u, if is404 e.page then "- ERROR 404" else "- OK"), (u, "- ERROR 404")],
         [Event.navigate])
      else
        ([(u, if is404 e.page then "- ERROR 404" else "- OK")],
         [Event.navigate, Event.writeFile (debugName f) e.page.content]) := by
  unfold check_one
  rw [h]
  simp [h4, hn, hr, hm]

/-- Every per-URL contribution to the result list is one pair for that URL
labelled "- OK" or "- ERROR 404", plus — only when the debug write raised — a
second "- ERROR 404" pair for the same URL. -/
theorem check_one_shape {α : Type} (u : α) (e : PageEnv) :
    ∃ l, (l = "- OK" ∨ l = "- ERROR 404") ∧
      ((check_one u e).1 = [(u, l)] ∨
        (e.writeErr = true ∧ (check_one u e).1 = [(u, l), (u, "- ERROR 404")])) := by
  cases hf : e.fetch with
  | exn m =>
    exact ⟨"- ERROR 404", Or.inr rfl, Or.inl (by rw [check_one_exn u e m hf])⟩
  | resp s f =>
    by_cases h4 : s = 404
    · subst h4
      exact ⟨"- ERROR 404", Or.inr rfl, Or.inl (by rw [check_one_fast404 u e f hf])⟩
    · by_cases hn : e.navOk = false
      · exact ⟨"- ERROR 404", Or.inr rfl, Or.inl (by rw [check_one_navFail u e s f hf h4 hn])⟩
      · have hn' : e.navOk = true := by
          cases hb : e.navOk
          · exact absurd hb hn
          · rfl
        by_cases hr : redirects404 e = true
        · exact ⟨"- ERROR 404", Or.inr rfl,
            Or.inl (by rw [check_one_redirect u e s f hf h4 hn' hr])⟩
        · have hr' : redirects404 e = false := by
            cases hb : redirects404 e
            · rfl
            · exact absurd hb hr
          by_cases hm : minimalContent e.page.content = true
          · exact ⟨"- ERROR 404", Or.inr rfl,
              Or.inl (by rw [check_one_minimal u e s f hf h4 hn' hr' hm])⟩
          · have hm' : minimalContent e.page.content = false := by
              cases hb : minimalContent e.page.content
              · rfl
              · exact absurd hb hm
            rw [check_one_heuristic u e s f hf h4 hn' hr' hm']
            refine ⟨if is404 e.page then "- ERROR 404" else "- OK", ?_, ?_⟩
            · cases hi : is404 e.page <;> simp [hi]
            · cases hw : e.writeErr
              · exact Or.inl (by simp)
              · exact Or.inr ⟨rfl, by simp⟩

theorem check_one_no_quit {α : Type} (u : α) (e : PageEnv) :
    Event.quit ∉ (check_one u e).2 := by
  cases hf : e.fetch with
  | exn m =>
    rw [check_one_exn u e m hf]
    simp
  | resp s f =>
    by_cases h4 : s = 404
    · subst h4
      rw [check_one_fast404 u e f hf]
      simp
    · by_cases hn : e.navOk = false
      · rw [check_one_navFail u e s f hf h4 hn]
        simp
      · have hn' : e.navOk = true := by
          cases hb : e.navOk
          · exact absurd hb hn
          · rfl
        by_cases hr : redirects404 e = true
        · rw [check_one_redirect u e s f hf h4 hn' hr]
          simp
        · have hr' : redirects404 e = false := by
            cases hb : redirects404 e
            · rfl
            · exact absurd hb hr
          by_cases hm : minimalContent e.page.content = true
          · rw [check_one_minimal u e s f hf h4 hn' hr' hm]
            simp
          · have hm' : minimalContent e.page.content = false := by
              cases hb : minimalContent e.page.content
              · rfl
              · exact absurd hb hm
            rw [check_one_heuristic u e s f hf h4 hn' hr' hm']
            cases hw : e.writeErr <;> simp

theorem check_batch_no_quit {α : Type} (envs : Nat → PageEnv) (i : Nat) (urls : List α) :
    Event.quit ∉ (check_batch envs i urls).2 := by
  induction urls generalizing i with
  | nil => simp [check_batch]
  | cons u us ih =>
    simp only [check_batch, List.mem_append]
    rintro (h | h)
    · exact check_one_no_quit u (envs i) h
    · exact ih (i + 1) h

/-! ### Concrete pages and environments -/

/-- An empty rendered page (never inspected on the fast path). -/
def emptyPage : RenderedPage :=
  { content := "", title := none, h1Strings := [], divStrings := [] }

/-- A 5000-character rendered page whose title is exactly "Home". -/
def homePage : RenderedPage :=
  { content := bigContent, title := some "Home", h1Strings := [], divStrings := [] }

/-- A page whose lowercased title is in the suspicious-title set is classified
404 by the specification's condition, whatever the body holds. -/
theorem spec_is404_title_home (p : RenderedPage) (h : p.title = some "Home") :
    spec_is404 p = true := by
  have hp : pageTitle p = "home" := by
    simp only [pageTitle, h]
    rfl
  unfold spec_is404
  rw [hp, show pyMem "home" suspicious_titles = true from by decide]
  simp

theorem is404_homePage : is404 homePage = true := by
  rw [is404_eq_spec]
  exact spec_is404_title_home homePage rfl

/-- Environment of a URL whose plain fetch already returns 404. -/
def fast404Env : PageEnv :=
  { fetch := FetchResult.resp 404 "https://site/gone", navOk := true, initialUrl := "",
    waitOk := false, currentUrl := "", page := emptyPage, writeErr := false }

/-- Environment of a URL that renders the Home-titled page and whose debug
write raises. -/
def homeWriteFailEnv : PageEnv :=
  { fetch := FetchResult.resp 200 "https://site/p", navOk := true,
    initialUrl := "https://site/p", waitOk := false, currentUrl := "https://site/p",
    page := homePage, writeErr := true }

/-- Environment of a URL that renders the Home-titled page, write succeeding. -/
def homeEnv : PageEnv :=
  { fetch := FetchResult.resp 200 "https://site/h", navOk := true,
    initialUrl := "https://site/h", waitOk := false, currentUrl := "https://site/h",
    page := homePage, writeErr := false }

theorem check_one_homeEnv :
    check_one "https://site/h" homeEnv =
      ([("https://site/h", "- ERROR 404")],
       [Event.navigate, Event.writeFile (debugName "https://site/h") bigContent]) := by
  rw [check_one_heuristic "https://site/h" homeEnv 200 "https://site/h" rfl (by decide) rfl rfl
    minimalContent_bigContent]
  rw [show homeEnv.writeErr = false from rfl, show homeEnv.page = homePage from rfl,
    is404_homePage]
  simp [show homePage.content = bigContent from rfl]

theorem check_one_homeWriteFailEnv :
    check_one "https://site/p" homeWriteFailEnv =
      ([("https://site/p", "- ERROR 404"), ("https://site/p", "- ERROR 404")],
       [Event.navigate]) := by
  rw [check_one_heuristic "https://site/p" homeWriteFailEnv 200 "https://site/p" rfl (by decide)
    rfl rfl minimalContent_bigContent]
  rw [show homeWriteFailEnv.writeErr = true from rfl,
    show homeWriteFailEnv.page = homePage from rfl, is404_homePage]
  simp

/-- C1 counterexample: on a batch of one URL whose debug-snapshot write fails
after the heuristic classification, `check_url_status` returns TWO pairs for
that single input URL, and the produced label is the string "- ERROR 404",
which is not an element of the claimed label set {"OK", "ERROR 404"}. -/
theorem c1_counterexample :
    (check_url_status true (fun _ => homeWriteFailEnv) ["https://site/p"]).1 =
      Except.ok [("https://site/p", "- ERROR 404"), ("https://site/p", "- ERROR 404")] ∧
    (("- ERROR 404" = "OK" ∨ "- ERROR 404" = "ERROR 404") → False) := by
  constructor
  · simp only [check_url_status, check_batch, if_true]
    rw [show check_one "https://site/p" ((fun _ : Nat => homeWriteFailEnv) 0) =
        ([("https://site/p", "- ERROR 404"), ("https://site/p", "- ERROR 404")],
         [Event.navigate]) from check_one_homeWriteFailEnv]
    simp
  · decide

/-- C1 (amended): given a successfully created browser session,
`check_url_status` returns (without raising) the concatenation, in input
order, of one group of pairs per input URL; every pair in a URL's group has
that URL as first component and a label in {"- OK", "- ERROR 404"} (the
source prefixes "- " to the labels); each group is a single pair, except that
a URL whose debug-snapshot write fails after heuristic classification
contributes a second "- ERROR 404" pair. -/
theorem c1_amended_output_pairs {α : Type} (envs : Nat → PageEnv) (urls : List α) :
    (check_url_status true envs urls).1 = Except.ok (check_batch envs 0 urls).1 ∧
    (∀ i (u : α) pr, pr ∈ (check_one u (envs i)).1 →
      pr.1 = u ∧ (pr.2 = "- OK" ∨ pr.2 = "- ERROR 404")) ∧
    (∀ i (u : α) (us : List α), (check_batch envs i (u :: us)).1 =
      (check_one u (envs i)).1 ++ (check_batch envs (i + 1) us).1) ∧
    (∀ i (u : α), (check_one u (envs i)).1.length = 1 ∨
      ((envs i).writeErr = true ∧ (check_one u (envs i)).1.length = 2)) := by
  refine ⟨by simp [check_url_status], ?_, ?_, ?_⟩
  · intro i u pr hpr
    obtain ⟨l, hl, hshape⟩ := check_one_shape u (envs i)
    rcases hshape with h1 | ⟨hw, h2⟩
    · rw [h1] at hpr
      simp only [List.mem_singleton] at hpr
      subst hpr
      exact ⟨rfl, hl⟩
    · rw [h2] at hpr
      simp only [List.mem_cons, List.mem_singleton, List.not_mem_nil, or_false] at hpr
      rcases hpr with rfl | rfl
      · exact ⟨rfl, hl⟩
      · exact ⟨rfl, Or.inr rfl⟩
  · intro i u us
    rfl
  · intro i u
    obtain ⟨l, _hl, hshape⟩ := check_one_shape u (envs i)
    rcases hshape with h1 | ⟨hw, h2⟩
    · exact Or.inl (by rw [h1]; rfl)
    · exact Or.inr ⟨hw, by rw [h2]; rfl⟩

/-- Witness for C1 (amended): the concrete pair produced for the Home-titled
page has the input URL as first component and the label "- ERROR 404". -/
theorem c1_witness :
    ("https://site/h", "- ERROR 404").1 = "https://site/h" ∧
    (("https://site/h", "- ERROR 404").2 = "- OK" ∨
      ("https://site/h", "- ERROR 404").2 = "- ERROR 404") :=
  (c1_amended_output_pairs (fun _ => homeEnv) ["https://site/h"]).2.1 0 "https://site/h"
    ("https://site/h", "- ERROR 404")
    (by
      show ("https://site/h", "- ERROR 404") ∈ (check_one "https://site/h" homeEnv).1
      rw [check_one_homeEnv]
      simp)

/-- C3 counterexample: a URL classified through the fast-path 404 outcome
produces its classification but an empty effect trace — no debug HTML file is
written, contradicting "regardless of outcome, the rendered HTML is
persisted". -/
theorem c3_counterexample :
    check_one "https://site/gone" fast404Env = ([("https://site/gone", "- ERROR 404")], []) :=
  check_one_fast404 "https://site/gone" fast404Env "https://site/gone" rfl

/-- C3 (amended): the rendered HTML is persisted only on the heuristic path —
when the plain fetch succeeded with a non-404 status, navigation succeeded,
no JS redirect to a "/404" URL was seen, the content passed the minimal-size
and emptiness checks, and the write itself did not raise; the debug file is
then named from the plain fetch's final (post-redirect) URL path with slashes
replaced and holds the rendered HTML. Conversely, every debug write that
happens arises exactly on that path with exactly that name and content; the
fast-path 404, redirect-to-404 and minimal-content outcomes persist
nothing. -/
theorem c3_amended_debug_persistence {α : Type} (u : α) (e : PageEnv) :
    (∀ s f, e.fetch = FetchResult.resp s f → s ≠ 404 → e.navOk = true →
      redirects404 e = false → minimalContent e.page.content = false → e.writeErr = false →
      (check_one u e).2 = [Event.navigate, Event.writeFile (debugName f) e.page.content]) ∧
    (∀ n c, Event.writeFile n c ∈ (check_one u e).2 →
      ∃ s f, e.fetch = FetchResult.resp s f ∧ s ≠ 404 ∧ e.navOk = true ∧
        redirects404 e = false ∧ minimalContent e.page.content = false ∧ e.writeErr = false ∧
        n = debugName f ∧ c = e.page.content) := by
  constructor
  · intro s f hf h4 hn hr hm hw
    rw [check_one_heuristic u e s f hf h4 hn hr hm, hw]
    simp
  · intro n c hmem
    cases hf : e.fetch with
    | exn m =>
      rw [check_one_exn u e m hf] at hmem
      simp at hmem
    | resp s f =>
      by_cases h4 : s = 404
      · subst h4
        rw [check_one_fast404 u e f hf] at hmem
        simp at hmem
      · by_cases hn : e.navOk = false
        · rw [check_one_navFail u e s f hf h4 hn] at hmem
          simp at hmem
        · have hn' : e.navOk = true := by
            cases hb : e.navOk
            · exact absurd hb hn
            · rfl
          by_cases hr : redirects404 e = true
          · rw [check_one_redirect u e s f hf h4 hn' hr] at hmem
            simp at hmem
          · have hr' : redirects404 e = false := by
              cases hb : redirects404 e
              · rfl
              · exact absurd hb hr
            by_cases hm : minimalContent e.page.content = true
            · rw [check_one_minimal u e s f hf h4 hn' hr' hm] at hmem
              simp at hmem
            · have hm' : minimalContent e.page.content = false := by
                cases hb : minimalContent e.page.content
                · rfl
                · exact absurd hb hm
              rw [check_one_heuristic u e s f hf h4 hn' hr' hm'] at hmem
              cases hw : e.writeErr
              · rw [hw] at hmem
                simp only [if_false, Bool.false_eq_true, List.mem_cons,
                  List.mem_singleton, List.not_mem_nil, or_false] at hmem
                rcases hmem with h | h
                · exact absurd h (by simp)
                · have hnc : n = debugName f ∧ c = e.page.content := by
                    have := h
                    injection this with h1 h2
                    exact ⟨h1, h2⟩
                  exact ⟨s, f, rfl, h4, hn', hr', hm', rfl, hnc.1, hnc.2⟩
              · rw [hw] at hmem
                simp at hmem

/-- Witness for C3 (amended): the Home-titled page taken through the heuristic
path produces exactly a navigation followed by the debug-file write. -/
theorem c3_witness :
    (check_one "https://site/h" homeEnv).2 =
      [Event.navigate, Event.writeFile (debugName "https://site/h") homeEnv.page.content] :=
  (c3_amended_debug_persistence "https://site/h" homeEnv).1 200 "https://site/h" rfl
    (by decide) rfl rfl minimalContent_bigContent rfl

/-- C4 counterexample: when the browser-session creation itself raises, the
exception propagates out of `check_url_status` — no URL is classified
"ERROR 404" and no teardown happens — contradicting the claim that every
error, including session-creation errors, is converted to a classification. -/
theorem c4_counterexample :
    check_url_status false (fun _ => fast404Env) ["https://site/gone"] =
      (Except.error (), []) := rfl

/-- C4 (amended): once the browser session is created successfully,
`check_url_status` never propagates an exception — it returns the batch
results for every input list — and the session is torn down exactly once per
batch (exactly one quit event in the trace) on every such run, including runs
whose individual URL checks raised and were converted to "- ERROR 404". A
failure of the session creation itself, which the source performs before its
try block, instead propagates to the caller. -/
theorem c4_amended_no_throw_teardown {α : Type} (envs : Nat → PageEnv) (urls : List α) :
    (check_url_status true envs urls).1 = Except.ok (check_batch envs 0 urls).1 ∧
    List.count Event.quit (check_url_status true envs urls).2 = 1 := by
  constructor
  · simp [check_url_status]
  · have h2 : (check_url_status true envs urls).2 =
        (check_batch envs 0 urls).2 ++ [Event.quit] := by
      simp [check_url_status]
    rw [h2, List.count_append]
    rw [List.count_eq_zero.mpr (check_batch_no_quit envs 0 urls)]
    simp

/-- C5 (confirmed): whenever the rendered page passes the size and emptiness
checks (and the earlier fetch/navigation/redirect stages fell through to the
heuristic), the first classification pair for the URL carries "- ERROR 404"
exactly when the specification's wording of the heuristic condition holds,
and "- OK" otherwise; in particular a page whose title is exactly "Home" is
classified "- ERROR 404" regardless of body content. -/
theorem c5_heuristic_classification {α : Type} (u : α) (e : PageEnv) (s : Nat) (f : String) :
    e.fetch = FetchResult.resp s f → s ≠ 404 → e.navOk = true → redirects404 e = false →
    minimalContent e.page.content = false →
    ((check_one u e).1.head? =
        some (u, if spec_is404 e.page then "- ERROR 404" else "- OK") ∧
      (e.page.title = some "Home" →
        (check_one u e).1.head? = some (u, "- ERROR 404"))) := by
  intro hf h4 hn hr hm
  have h := check_one_heuristic u e s f hf h4 hn hr hm
  constructor
  · rw [h, ← is404_eq_spec]
    cases hw : e.writeErr <;> simp
  · intro ht
    have h404 : is404 e.page = true := by
      rw [is404_eq_spec]
      exact spec_is404_title_home e.page ht
    rw [h, h404]
    cases hw : e.writeErr <;> simp

/-- Witness for C5: the concrete Home-titled page is classified
"- ERROR 404". -/
theorem c5_witness :
    (check_one "https://site/h2" homeEnv).1.head? = some ("https://site/h2", "- ERROR 404") :=
  (c5_heuristic_classification "https://site/h2" homeEnv 200 "https://site/h" rfl (by decide)
    rfl rfl minimalContent_bigContent).2 rfl

/-- C6 (confirmed): a URL whose plain HTTP fetch (spoofed desktop user agent,
redirects followed) ends with final status 404 is classified "- ERROR 404"
immediately, with an empty effect trace — in particular no browser navigation
happens for it. -/
theorem c6_fast_path_404 {α : Type} (u : α) (e : PageEnv) (f : String) :
    e.fetch = FetchResult.resp 404 f →
    check_one u e = ([(u, "- ERROR 404")], []) ∧
      Event.navigate ∉ (check_one u e).2 := by
  intro h
  have hc := check_one_fast404 u e f h
  exact ⟨hc, by rw [hc]; simp⟩

/-- Witness for C6: a concrete URL whose plain fetch returns 404. -/
theorem c6_witness :
    check_one "https://site/missing" fast404Env =
      ([("https://site/missing", "- ERROR 404")], []) ∧
    Event.navigate ∉ (check_one "https://site/missing" fast404Env).2 :=
  c6_fast_path_404 "https://site/missing" fast404Env "https://site/gone" rfl

/-- C9 (confirmed): in the orchestrator's child loop, a child sitemap that
fails validation contributes exactly its validation event — no download is
attempted for it and no classification event (hence no classification entry
for any of its URLs) appears in the run's trace — and does not abort; a child
whose download fails, or that yields no URLs, likewise stops before
classification without aborting; and after any non-aborting child the loop
continues with the remaining children unchanged. -/
theorem c9_orchestrator_skips (cenvs : Nat → ChildEnv) (i : Nat) (u : Option String)
    (us : List (Option String)) :
    ((validate_xml (cenvs i).validateFetch).1 = false →
      run_child u (cenvs i) =
        ([RunEvent.validated u (validate_xml (cenvs i).validateFetch)], false)) ∧
    ((validate_xml (cenvs i).validateFetch).1 = true →
      (download_sitemap (urlStr u) (cenvs i).downloadFetch (cenvs i).downloadWriteErr).1.1 =
        false →
      run_child u (cenvs i) =
        ([RunEvent.validated u (validate_xml (cenvs i).validateFetch),
          RunEvent.downloaded u
            (download_sitemap (urlStr u) (cenvs i).downloadFetch
              (cenvs i).downloadWriteErr).1], false)) ∧
    ((validate_xml (cenvs i).validateFetch).1 = true →
      (download_sitemap (urlStr u) (cenvs i).downloadFetch (cenvs i).downloadWriteErr).1.1 =
        true →
      get_top_urls (cenvs i).sampleFetch 10 = [] →
      run_child u (cenvs i) =
        ([RunEvent.validated u (validate_xml (cenvs i).validateFetch),
          RunEvent.downloaded u
            (download_sitemap (urlStr u) (cenvs i).downloadFetch
              (cenvs i).downloadWriteErr).1,
          RunEvent.sampled u []], false)) ∧
    ((run_child u (cenvs i)).2 = false →
      childrenTrace cenvs i (u :: us) =
        ((run_child u (cenvs i)).1 ++ (childrenTrace cenvs (i + 1) us).1,
         (childrenTrace cenvs (i + 1) us).2)) := by
  refine ⟨?_, ?_, ?_, ?_⟩
  · intro hv
    simp [run_child, hv]
  · intro hv hd
    simp [run_child, hv, hd]
  · intro hv hd hs
    simp [run_child, hv, hd, hs]
  · intro hab
    simp [childrenTrace, hab]

/-- Environment of a child sitemap whose validation fetch raises. -/
def badChildEnv : ChildEnv :=
  { validateFetch := FetchResult.exn "connection refused",
    downloadFetch := FetchResult.exn "connection refused",
    downloadWriteErr := none,
    sampleFetch := FetchResult.exn "connection refused",
    driverOk := true,
    pages := fun _ => fast404Env }

/-- Witness for C9: a concrete child failing validation contributes only its
validation event and no abort. -/
theorem c9_witness :
    run_child (some "https://site/childA.xml") badChildEnv =
      ([RunEvent.validated (some "https://site/childA.xml")
          (false, "Request error: connection refused")], false) :=
  (c9_orchestrator_skips (fun _ => badChildEnv) 0 (some "https://site/childA.xml") []).1 rfl
